import Mathlib

/-!
Verification of `src/scripts/webhook.py`, a minimal Flask webhook receiver.

The handler `response` is embedded as a pure function.  The external
subprocess boundary (`subprocess.run`) is modelled by a mock mapping the
index of each invocation (0 = first call, 1 = second, ...) to the outcome
of that process: an exit code, or an OS-level invocation error.  The
handler produces the trace of subprocess invocations it performed together
with either an HTTP response (normal return) or an uncaught Python
exception (a `Fault`).
-/

/-- A JSON value, as produced by Flask\x27s `request.get_json()`. -/
inductive Json where
  | str (s : String)
  | num (n : Int)
  | obj (fields : List (String × Json))
  | arr (elems : List Json)
  | null

/-- An uncaught Python exception escaping the handler. -/
inductive Fault where
  | keyError (key : String)
  | typeError
  | procError (msg : String)
deriving DecidableEq

/-- Python subscript `data[k]` on a parsed JSON value: a missing key in a
dict raises `KeyError`, and subscripting a non-dict with a string key
raises `TypeError`. -/
def Json.get : Json → String → Except Fault Json
  | .obj fields, k =>
    match fields.lookup k with
    | some v => Except.ok v
    | none => Except.error (Fault.keyError k)
  | _, _ => Except.error Fault.typeError

/-- Python `==` between a parsed JSON value and a string literal: true
exactly when the value is a string equal to the literal. -/
def Json.eqStr : Json → String → Bool
  | .str s, t => s = t
  | _, _ => false

/-- One `subprocess.run` invocation: an argument vector (`shell=False`)
or a single command string interpreted by a shell (`shell=True`). -/
inductive Invocation where
  | argv (args : List String)
  | shell (cmd : String)
deriving DecidableEq

/-- Outcome of a spawned process at the mocked boundary. -/
inductive ProcResult where
  | exit (code : Nat)
  | oserror (msg : String)

/-- Python `str(list_of_strings)`, used by `CalledProcessError.__str__`
when the command was an argument vector. -/
def pyStrList (args : List String) : String :=
  "[" ++ String.intercalate ", " (args.map (fun a => "\x27" ++ a ++ "\x27")) ++ "]"

/-- The `cmd` attribute of the failed call as it is formatted into the
exception text: the list for an argument vector, the raw string for a
shell command. -/
def Invocation.cmdStr : Invocation → String
  | .argv args => pyStrList args
  | .shell s => s

/-- `str(e)` for `e : CalledProcessError` raised by `check=True` on a
non-zero exit code. -/
def calledProcessErrorStr (inv : Invocation) (code : Nat) : String :=
  "Command \x27" ++ inv.cmdStr ++ "\x27 returned non-zero exit status " ++
    toString code ++ "."

/-- The exception text raised by `subprocess.run(inv, check=True)` under
outcome `res`, or `none` when the call succeeds (exit code 0). -/
def procFailure (inv : Invocation) : ProcResult → Option String
  | .exit 0 => none
  | .exit c => some (calledProcessErrorStr inv c)
  | .oserror msg => some msg

/-- An HTTP response returned by the handler: a status code and either an
empty body (`none`) or a JSON object body given as ordered key/value
pairs. -/
structure HttpResponse where
  status : Nat
  body : Option (List (String × String))
deriving DecidableEq

/-- The shell command string built by the f-string on the build line:
`f"/home/ubuntu/zig-linux-x86_64-0.13.0/zig build -Doptimize=ReleaseSafe benchmark -- gossip --telemetry=..."`
with `data[\x27after\x27]` interpolated. -/
def zigBuildCmd (after : String) : String :=
  "/home/ubuntu/zig-linux-x86_64-0.13.0/zig build -Doptimize=ReleaseSafe benchmark -- gossip --telemetry=" ++ after

/-- The handler `response()` of `webhook.py`, with `request.get_json()`
already parsed into `data` and the subprocess boundary mocked by `mock`
(outcome of the n-th invocation).  Returns the trace of subprocess
invocations together with the handler\x27s result: `Except.ok` a response
on normal return, `Except.error` an uncaught exception.

Source, line by line:
* `data[\x27ref\x27]` may raise (KeyError / TypeError);
* if it equals `\x27refs/heads/main\x27`:
  `subprocess.run([\x27git\x27, \x27fetch\x27, \x27--all\x27], check=True)` unguarded;
  the print f-string reads `data[\x27after\x27]` (may raise KeyError);
  `subprocess.run([\x27git\x27, \x27checkout\x27, data[\x27after\x27]], check=True)` unguarded
  (a non-string argument raises TypeError before spawning);
  the build `subprocess.run(f"...", check=True, shell=True)` inside
  `try/except Exception`, whose handler returns
  `jsonify(message=..., error=str(e)), 500`;
* fall through / non-matching ref: `Response(status=200)`. -/
def response (mock : Nat → ProcResult) (data : Json) :
    List Invocation × Except Fault HttpResponse :=
  match data.get "ref" with
  | .error f => ([], Except.error f)
  | .ok refv =>
    if refv.eqStr "refs/heads/main" then
      let fetchCall := Invocation.argv ["git", "fetch", "--all"]
      match procFailure fetchCall (mock 0) with
      | some msg => ([fetchCall], Except.error (Fault.procError msg))
      | none =>
        match data.get "after" with
        | .error f => ([fetchCall], Except.error f)
        | .ok (Json.str after) =>
          let checkoutCall := Invocation.argv ["git", "checkout", after]
          match procFailure checkoutCall (mock 1) with
          | some msg =>
            ([fetchCall, checkoutCall], Except.error (Fault.procError msg))
          | none =>
            let buildCall := Invocation.shell (zigBuildCmd after)
            match procFailure buildCall (mock 2) with
            | some msg =>
              ([fetchCall, checkoutCall, buildCall],
                Except.ok ⟨500, some [("message", "An error occurred"), ("error", msg)]⟩)
            | none =>
              ([fetchCall, checkoutCall, buildCall], Except.ok ⟨200, none⟩)
        | .ok _ => ([fetchCall], Except.error Fault.typeError)
    else ([], Except.ok ⟨200, none⟩)

/-- Two invocations of the handler with the same payload against the same
mocked boundary, as a pair of runs. -/
def handleTwice (mock : Nat → ProcResult) (data : Json) :
    (List Invocation × Except Fault HttpResponse) ×
    (List Invocation × Except Fault HttpResponse) :=
  (response mock data, response mock data)

/-- The fixed launch parameters of `app.run(host=\x270.0.0.0\x27, port=80)`. -/
structure LaunchConfig where
  host : String
  port : Nat
deriving DecidableEq

/-- The constants passed to `app.run` at startup. -/
def appLaunch : LaunchConfig := ⟨"0.0.0.0", 80⟩

/-- A process that exits with code 0 raises nothing under `check=True`. -/
theorem procFailure_exit_zero (inv : Invocation) :
    procFailure inv (ProcResult.exit 0) = none := rfl

/-- C1: payload with `ref == "refs/heads/main"` and an `after` value, all
three subprocess calls succeed: the handler returns HTTP 200 with empty
body, and the trace is exactly fetch, then checkout, then build, each
once, with `after` passed through unchanged to checkout and to the build
telemetry argument. -/
theorem C1_success_path (mock : Nat → ProcResult) (data : Json) (a : String)
    (href : data.get "ref" = Except.ok (Json.str "refs/heads/main"))
    (hafter : data.get "after" = Except.ok (Json.str a))
    (h0 : mock 0 = ProcResult.exit 0) (h1 : mock 1 = ProcResult.exit 0)
    (h2 : mock 2 = ProcResult.exit 0) :
    response mock data =
      ([Invocation.argv ["git", "fetch", "--all"],
        Invocation.argv ["git", "checkout", a],
        Invocation.shell (zigBuildCmd a)], Except.ok ⟨200, none⟩) := by
  simp [response, href, hafter, h0, h1, h2, Json.eqStr, procFailure]

theorem C1_success_path_witness :
    response (fun _ => ProcResult.exit 0)
      (Json.obj [("ref", Json.str "refs/heads/main"), ("after", Json.str "abc123")]) =
      ([Invocation.argv ["git", "fetch", "--all"],
        Invocation.argv ["git", "checkout", "abc123"],
        Invocation.shell (zigBuildCmd "abc123")], Except.ok ⟨200, none⟩) :=
  C1_success_path (fun _ => ProcResult.exit 0)
    (Json.obj [("ref", Json.str "refs/heads/main"), ("after", Json.str "abc123")])
    "abc123" rfl rfl rfl rfl rfl

/-- C2: any payload whose `ref` value differs from `"refs/heads/main"`
(under Python `==`) yields HTTP 200 with empty body and an empty
invocation trace. -/
theorem C2_other_branch_ignored (mock : Nat → ProcResult) (data : Json)
    (refv : Json) (href : data.get "ref" = Except.ok refv)
    (hne : refv.eqStr "refs/heads/main" = false) :
    response mock data = ([], Except.ok ⟨200, none⟩) := by
  simp [response, href, hne]

theorem C2_other_branch_ignored_witness :
    response (fun _ => ProcResult.exit 0)
      (Json.obj [("ref", Json.str "refs/heads/develop"), ("after", Json.str "abc123")]) =
      ([], Except.ok ⟨200, none⟩) :=
  C2_other_branch_ignored (fun _ => ProcResult.exit 0)
    (Json.obj [("ref", Json.str "refs/heads/develop"), ("after", Json.str "abc123")])
    (Json.str "refs/heads/develop") rfl rfl

/-- C3: `ref` matches, fetch and checkout succeed, and the build call
fails (non-zero exit or invocation error, the exception text being `E`):
the handler returns HTTP 500 with a JSON body whose `message` field is
exactly `"An error occurred"` and whose `error` field is `E`. -/
theorem C3_build_failure_reported (mock : Nat → ProcResult) (data : Json)
    (a E : String)
    (href : data.get "ref" = Except.ok (Json.str "refs/heads/main"))
    (hafter : data.get "after" = Except.ok (Json.str a))
    (h0 : mock 0 = ProcResult.exit 0) (h1 : mock 1 = ProcResult.exit 0)
    (h2 : procFailure (Invocation.shell (zigBuildCmd a)) (mock 2) = some E) :
    response mock data =
      ([Invocation.argv ["git", "fetch", "--all"],
        Invocation.argv ["git", "checkout", a],
        Invocation.shell (zigBuildCmd a)],
        Except.ok ⟨500, some [("message", "An error occurred"), ("error", E)]⟩) := by
  simp [response, href, hafter, h0, h1, h2, Json.eqStr, procFailure_exit_zero]

theorem C3_build_failure_reported_witness :
    response (fun n => if n = 2 then ProcResult.exit 1 else ProcResult.exit 0)
      (Json.obj [("ref", Json.str "refs/heads/main"), ("after", Json.str "deadbeef")]) =
      ([Invocation.argv ["git", "fetch", "--all"],
        Invocation.argv ["git", "checkout", "deadbeef"],
        Invocation.shell (zigBuildCmd "deadbeef")],
        Except.ok ⟨500, some [("message", "An error occurred"),
          ("error", calledProcessErrorStr (Invocation.shell (zigBuildCmd "deadbeef")) 1)]⟩) :=
  C3_build_failure_reported
    (fun n => if n = 2 then ProcResult.exit 1 else ProcResult.exit 0)
    (Json.obj [("ref", Json.str "refs/heads/main"), ("after", Json.str "deadbeef")])
    "deadbeef" (calledProcessErrorStr (Invocation.shell (zigBuildCmd "deadbeef")) 1)
    rfl rfl rfl rfl rfl

/-- C4: a failure of the fetch step, or of the checkout step, is
unguarded: it escapes the handler as an uncaught exception
(`Fault.procError`), never producing the structured JSON error body, and
no later subprocess step runs. -/
theorem C4_sync_failures_unguarded (mock : Nat → ProcResult) (data : Json)
    (a : String)
    (href : data.get "ref" = Except.ok (Json.str "refs/heads/main"))
    (hafter : data.get "after" = Except.ok (Json.str a)) :
    (∀ m, procFailure (Invocation.argv ["git", "fetch", "--all"]) (mock 0) = some m →
      response mock data =
        ([Invocation.argv ["git", "fetch", "--all"]],
          Except.error (Fault.procError m))) ∧
    (∀ m, procFailure (Invocation.argv ["git", "fetch", "--all"]) (mock 0) = none →
      procFailure (Invocation.argv ["git", "checkout", a]) (mock 1) = some m →
      response mock data =
        ([Invocation.argv ["git", "fetch", "--all"],
          Invocation.argv ["git", "checkout", a]],
          Except.error (Fault.procError m))) := by
  constructor
  · intro m hm
    simp [response, href, hm, Json.eqStr]
  · intro m h0 hm
    simp [response, href, hafter, h0, hm, Json.eqStr]

theorem C4_sync_failures_unguarded_witness :
    response (fun _ => ProcResult.oserror "boom")
      (Json.obj [("ref", Json.str "refs/heads/main"), ("after", Json.str "abc123")]) =
      ([Invocation.argv ["git", "fetch", "--all"]],
        Except.error (Fault.procError "boom")) :=
  (C4_sync_failures_unguarded (fun _ => ProcResult.oserror "boom")
    (Json.obj [("ref", Json.str "refs/heads/main"), ("after", Json.str "abc123")])
    "abc123" rfl rfl).1 "boom" rfl

/-- C5: on the matching-branch path the fetch step runs
`git fetch --all` as an argument vector, the checkout step runs
`git checkout <after>` as an argument vector, and the build step is a
single shell-interpreted command string of the exact shape
`/home/ubuntu/zig-linux-x86_64-0.13.0/zig build -Doptimize=ReleaseSafe benchmark -- gossip --telemetry=<after>`
with the payload\x27s `after` interpolated. -/
theorem C5_invocation_shapes (mock : Nat → ProcResult) (data : Json)
    (a : String)
    (href : data.get "ref" = Except.ok (Json.str "refs/heads/main"))
    (hafter : data.get "after" = Except.ok (Json.str a))
    (h0 : mock 0 = ProcResult.exit 0) (h1 : mock 1 = ProcResult.exit 0) :
    (response mock data).1 =
      [Invocation.argv ["git", "fetch", "--all"],
       Invocation.argv ["git", "checkout", a],
       Invocation.shell
         ("/home/ubuntu/zig-linux-x86_64-0.13.0/zig build -Doptimize=ReleaseSafe benchmark -- gossip --telemetry=" ++ a)] := by
  cases hb : mock 2 with
  | exit c =>
    cases c with
    | zero => simp [response, href, hafter, h0, h1, hb, Json.eqStr, procFailure, zigBuildCmd]
    | succ k => simp [response, href, hafter, h0, h1, hb, Json.eqStr, procFailure, zigBuildCmd]
  | oserror m =>
    simp [response, href, hafter, h0, h1, hb, Json.eqStr, procFailure, zigBuildCmd]

theorem C5_invocation_shapes_witness :
    (response (fun _ => ProcResult.exit 0)
      (Json.obj [("ref", Json.str "refs/heads/main"), ("after", Json.str "cafe")])).1 =
      [Invocation.argv ["git", "fetch", "--all"],
       Invocation.argv ["git", "checkout", "cafe"],
       Invocation.shell
         ("/home/ubuntu/zig-linux-x86_64-0.13.0/zig build -Doptimize=ReleaseSafe benchmark -- gossip --telemetry=" ++ "cafe")] :=
  C5_invocation_shapes (fun _ => ProcResult.exit 0)
    (Json.obj [("ref", Json.str "refs/heads/main"), ("after", Json.str "cafe")])
    "cafe" rfl rfl rfl rfl

/-- C6: the handler is deterministic and stateless: two invocations with
the same payload against the same mocked subprocess boundary produce the
same invocation trace and the same result. -/
theorem C6_deterministic (mock : Nat → ProcResult) (data : Json) :
    (handleTwice mock data).1 = (handleTwice mock data).2 := rfl

/-- C7: the server is bound at startup to listen address `0.0.0.0` and
port `80`, as fixed constants. -/
theorem C7_launch_constants : appLaunch.host = "0.0.0.0" ∧ appLaunch.port = 80 :=
  ⟨rfl, rfl⟩

/-- C8: `ref` matches but the payload lacks the `after` key: fetch is
invoked exactly once (given that it succeeds), then the handler faults
with an uncaught `KeyError` on reading `after`; checkout and build are
never invoked. -/
theorem C8_missing_after_after_fetch (mock : Nat → ProcResult) (data : Json)
    (href : data.get "ref" = Except.ok (Json.str "refs/heads/main"))
    (hafter : data.get "after" = Except.error (Fault.keyError "after"))
    (h0 : mock 0 = ProcResult.exit 0) :
    response mock data =
      ([Invocation.argv ["git", "fetch", "--all"]],
        Except.error (Fault.keyError "after")) := by
  simp [response, href, hafter, h0, Json.eqStr, procFailure]

theorem C8_missing_after_after_fetch_witness :
    response (fun _ => ProcResult.exit 0)
      (Json.obj [("ref", Json.str "refs/heads/main")]) =
      ([Invocation.argv ["git", "fetch", "--all"]],
        Except.error (Fault.keyError "after")) :=
  C8_missing_after_after_fetch (fun _ => ProcResult.exit 0)
    (Json.obj [("ref", Json.str "refs/heads/main")]) rfl rfl rfl

/-- C9: if reading `data["ref"]` raises (missing key in the object, or
the body is not a JSON object), the handler faults with that uncaught
exception before any subprocess is invoked: the trace is empty and no
response is produced. -/
theorem C9_bad_ref_no_side_effects (mock : Nat → ProcResult) (data : Json)
    (f : Fault) (href : data.get "ref" = Except.error f) :
    response mock data = ([], Except.error f) := by
  simp [response, href]

theorem C9_bad_ref_no_side_effects_witness :
    response (fun _ => ProcResult.exit 0)
      (Json.obj [("after", Json.str "abc123")]) =
      ([], Except.error (Fault.keyError "ref")) :=
  C9_bad_ref_no_side_effects (fun _ => ProcResult.exit 0)
    (Json.obj [("after", Json.str "abc123")]) (Fault.keyError "ref") rfl

/-- C10: whenever the handler returns normally, the response is either
HTTP 200 with an empty body, or HTTP 500 with a JSON body holding exactly
the keys `message` (equal to `"An error occurred"`) and `error`. -/
theorem C10_response_shape_invariant (mock : Nat → ProcResult) (data : Json)
    (r : HttpResponse) (h : (response mock data).2 = Except.ok r) :
    r = ⟨200, none⟩ ∨
      ∃ e, r = ⟨500, some [("message", "An error occurred"), ("error", e)]⟩ := by
  rcases hr : data.get "ref" with f | refv
  · simp [response, hr] at h
  by_cases hb : refv.eqStr "refs/heads/main"
  case neg =>
    left
    simp [response, hr, hb] at h
    exact h.symm
  case pos =>
    rcases hm0 : procFailure (Invocation.argv ["git", "fetch", "--all"]) (mock 0) with _ | m
    case some => simp [response, hr, hb, hm0] at h
    rcases ha : data.get "after" with f | v
    · simp [response, hr, hb, hm0, ha] at h
    rcases v with a | n | fs | es | _
    case num => simp [response, hr, hb, hm0, ha] at h
    case obj => simp [response, hr, hb, hm0, ha] at h
    case arr => simp [response, hr, hb, hm0, ha] at h
    case null => simp [response, hr, hb, hm0, ha] at h
    case str =>
      rcases hm1 : procFailure (Invocation.argv ["git", "checkout", a]) (mock 1) with _ | m
      case some => simp [response, hr, hb, hm0, ha, hm1] at h
      rcases hm2 : procFailure (Invocation.shell (zigBuildCmd a)) (mock 2) with _ | m
      case none =>
        left
        simp [response, hr, hb, hm0, ha, hm1, hm2] at h
        exact h.symm
      case some =>
        right
        refine ⟨m, ?_⟩
        simp [response, hr, hb, hm0, ha, hm1, hm2] at h
        exact h.symm

theorem C10_response_shape_invariant_witness :
    (⟨200, none⟩ : HttpResponse) = ⟨200, none⟩ ∨
      ∃ e, (⟨200, none⟩ : HttpResponse) =
        ⟨500, some [("message", "An error occurred"), ("error", e)]⟩ :=
  C10_response_shape_invariant (fun _ => ProcResult.exit 0)
    (Json.obj [("ref", Json.str "refs/heads/develop")]) ⟨200, none⟩ rfl
